import Mathlib

/-! Verification of the copilot-premium-usage-exporter service against its
natural-language specification.

The development shallowly embeds the Go sources:
- the rate-limited GitHub API client (`internal/github/client.go`):
  `ClientState`, `updateRateLimit`, `sleepSecondaryRateLimit`,
  `sleepPrimaryRateLimit`, `get`, `listCopilotSeats`, `getUserPremiumUsage`;
- the collector and metric publisher (`cmd/main.go`): `collect`, `publish`,
  and a small interleaving semantics for the RWMutex-guarded publish/scrape
  discipline (`Step`, `Inv`);
- configuration loading (`internal/config/config.go`): `Config.Load`.

HTTP traffic is modelled by passing the sequence of outcomes the network
would produce for successive requests (`HttpOutcome`); a response carries
its status, the three headers the client reads (a Go `http.Header.Get`
returns the empty string for an absent header, so headers are plain
strings), and the JSON-decoding result of its body for the caller's target
type (`Option V`, `none` meaning the body does not decode). Durations are
int64 nanosecond counts like Go `time.Duration`, with explicit
two's-complement wrapping (`wrapInt64`) where Go arithmetic wraps and
saturation (`saturateInt64`) where `time.Time.Sub` saturates; timestamps
are unix seconds and the model clock advances at second resolution
(`sleepSeconds`). Monetary values are float64 in the source and
are only ever carried, never computed with, so they are embedded as opaque
`Float` payloads. -/

namespace CopilotUsageExporter

/-! Model of Go `strconv.ParseInt(s, 10, 64)` (and `strconv.Atoi`, which is
`ParseInt(s, 10, 0)` with the int size of 64 bits): an optional sign
followed by at least one decimal digit, value within the int64 range;
anything else (empty string included) is a parse error, `none`. -/

def digitsToNat : Nat → List Char → Option Nat
  | acc, [] => some acc
  | acc, ch :: rest =>
      if ch.isDigit then digitsToNat (acc * 10 + (ch.toNat - 48)) rest else none

def parseDigits : List Char → Option Nat
  | [] => none
  | l => digitsToNat 0 l

def int64Max : Nat := 2 ^ 63 - 1

def parseInt64 (s : String) : Option Int :=
  match s.data with
  | [] => none
  | '+' :: rest =>
      match parseDigits rest with
      | some n => if n ≤ int64Max then some (Int.ofNat n) else none
      | none => none
  | '-' :: rest =>
      match parseDigits rest with
      | some n => if n ≤ int64Max + 1 then some (-(Int.ofNat n)) else none
      | none => none
  | l =>
      match parseDigits l with
      | some n => if n ≤ int64Max then some (Int.ofNat n) else none
      | none => none

/-! The rate-limited API client, from `internal/github/client.go`. -/

def maxRetries : Nat := 3

/-- Nanoseconds per second: Go `time.Second` as an int64 Duration. -/
def nsPerSecond : Int := 1000000000

/-- Go `defaultFallbackSleep = 60 * time.Second`, in nanoseconds. -/
def defaultFallbackSleep : Int := 60 * nsPerSecond

/-- Go `rateLimitResetBuffer = 5 * time.Second`, in nanoseconds. -/
def rateLimitResetBuffer : Int := 5 * nsPerSecond

/-- Two's-complement wrap-around of Go int64 arithmetic: `time.Duration`
is an int64 count of nanoseconds and Go `+` and `*` on it wrap. -/
def wrapInt64 (n : Int) : Int := (n + 2 ^ 63) % 2 ^ 64 - 2 ^ 63

/-- Saturation of `time.Time.Sub` (hence of `time.Until`): a difference
beyond the Duration range returns the maximum (or minimum) Duration. -/
def saturateInt64 (n : Int) : Int :=
  if n > 2 ^ 63 - 1 then 2 ^ 63 - 1
  else if n < -(2 ^ 63) then -(2 ^ 63)
  else n

/-- Whole seconds a `time.Sleep` of `d` nanoseconds takes (a nonpositive
duration returns immediately); advances the model's second-resolution
clock. -/
def sleepSeconds (d : Int) : Int := max d 0 / nsPerSecond

/-- Client state: the bearer token and the tracked rate-limit state
(`rateLimitRemaining`, `rateLimitReset`). The Go struct's `httpClient` and
`logger` fields carry no data the control flow reads and are elided. -/
structure ClientState where
  token : String
  rateLimitRemaining : Int
  rateLimitReset : Int
deriving Repr, DecidableEq

/-- NewClient: `rateLimitRemaining` starts at -1 (unknown); the zero
`time.Time` reset is modelled as unix second 0 (its value is never read
while `rateLimitRemaining` is -1). -/
def newClient (token : String) : ClientState :=
  { token := token, rateLimitRemaining := -1, rateLimitReset := 0 }

/-- One HTTP response as the client reads it: status code, the three
headers (empty string = absent, as with Go `Header.Get`), and the JSON
decode result of the body for the caller-supplied target type. -/
structure Response (V : Type) where
  status : Nat
  retryAfter : String
  rateLimitRemaining : String
  rateLimitReset : String
  body : Option V

/-- Outcome of one `httpClient.Do`: a transport error or a response. -/
abbrev HttpOutcome (V : Type) := Except String (Response V)

/-- updateRateLimit: leniently parse `X-RateLimit-Remaining` and
`X-RateLimit-Reset`; a header that is absent or does not parse leaves the
corresponding field unchanged. -/
def updateRateLimit {V : Type} (c : ClientState) (resp : Response V) : ClientState :=
  let c1 :=
    if resp.rateLimitRemaining ≠ "" then
      match parseInt64 resp.rateLimitRemaining with
      | some n => { c with rateLimitRemaining := n }
      | none => c
    else c
  if resp.rateLimitReset ≠ "" then
    match parseInt64 resp.rateLimitReset with
    | some unix => { c1 with rateLimitReset := unix }
    | none => c1
  else c1

/-- sleepSecondaryRateLimit: the Duration slept for a 429 — Go computes
`time.Duration(secs) * time.Second`, an int64 multiplication that wraps,
so a positive `Retry-After` above 9223372036 seconds wraps to a negative
Duration (and the Sleep returns immediately); absent, unparseable or
nonpositive values fall back to 60s. The function returns what it passed
to Sleep. -/
def sleepSecondaryRateLimit {V : Type} (resp : Response V) : Int :=
  if resp.retryAfter ≠ "" then
    match parseInt64 resp.retryAfter with
    | some secs =>
        if secs > 0 then wrapInt64 (secs * nsPerSecond) else defaultFallbackSleep
    | none => defaultFallbackSleep
  else defaultFallbackSleep

/-- sleepPrimaryRateLimit: the Duration slept for a 403 primary rate
limit — `time.Until(time.Unix(unix, 0))` (a saturating Sub against the
current unix second `now`) plus the 5s buffer (a wrapping int64 add) when
that Duration is positive, else the 60s fallback. -/
def sleepPrimaryRateLimit {V : Type} (now : Int) (resp : Response V) : Int :=
  if resp.rateLimitReset ≠ "" then
    match parseInt64 resp.rateLimitReset with
    | some unix =>
        let d := wrapInt64 (saturateInt64 ((unix - now) * nsPerSecond) +
          rateLimitResetBuffer)
        if d > 0 then d else defaultFallbackSleep
    | none => defaultFallbackSleep
  else defaultFallbackSleep

/-- The errors `Client.get` can return, one constructor per `return` site
carrying what the `fmt.Errorf` call formats; `GetErr.message` renders the
exact Go error text. (Go errors are distinct values; an inductive type
keeps a transport error whose text happens to coincide with a client
message distinguishable, as it is in Go.) -/
inductive GetErr where
  | transport : String → GetErr
  | jsonDecode : GetErr
  | unexpectedStatus : Nat → String → GetErr
  | secondaryRateLimited : String → GetErr
  | primaryRateLimited : String → GetErr
  | exceededMaxRetries : String → GetErr
  | noOutcome : GetErr
deriving Repr, DecidableEq

/-- The Go error text of each error (`jsonDecode` stands for whatever text
`json.Decoder.Decode` produced; `noOutcome` is the model artifact of
running out of supplied network outcomes). -/
def GetErr.message : GetErr → String
  | GetErr.transport e => e
  | GetErr.jsonDecode => "json decode error"
  | GetErr.unexpectedStatus status url =>
      "unexpected status " ++ toString status ++ " for " ++ url
  | GetErr.secondaryRateLimited url =>
      "secondary rate limited on " ++ url ++ " after " ++ toString maxRetries ++ " retries"
  | GetErr.primaryRateLimited url =>
      "primary rate limited on " ++ url ++ " after " ++ toString maxRetries ++ " retries"
  | GetErr.exceededMaxRetries url => "get " ++ url ++ ": exceeded max retries"
  | GetErr.noOutcome => "model: no network outcome provided"

/-- What one call of `Client.get` did: its return value, how many HTTP
requests it issued, the Durations slept in order (int64 nanosecond counts,
as handed to `time.Sleep`), and the client state after the call. -/
structure GetResult (V : Type) where
  result : Except GetErr V
  requests : Nat
  sleeps : List Int
  finalC : ClientState

/-- The retry loop of `Client.get`, consuming one network outcome per
issued request. Go iterates `for attempt := range maxRetries` with
`retriesRemaining := maxRetries - attempt - 1`; here the counter runs down:
`retriesLeft = maxRetries - attempt`, so the loop body runs while
`retriesLeft > 0` with `retriesRemaining = retriesLeft - 1`, and
`retriesLeft = 0` is the loop falling through to the "exceeded max
retries" return. -/
def getLoop {V : Type} (url : String) :
    ClientState → Int → Nat → List (HttpOutcome V) → GetResult V
  | c, _, 0, _ =>
      { result := Except.error (GetErr.exceededMaxRetries url), requests := 0,
        sleeps := [], finalC := c }
  | c, _, _ + 1, [] =>
      { result := Except.error GetErr.noOutcome, requests := 0, sleeps := [],
        finalC := c }
  | c, _, _ + 1, Except.error e :: _ =>
      { result := Except.error (GetErr.transport e), requests := 1, sleeps := [],
        finalC := c }
  | c, now, retriesRemaining + 1, Except.ok resp :: rest =>
      if resp.status = 200 then
        let c1 := updateRateLimit c resp
        { result :=
            match resp.body with
            | some v => Except.ok v
            | none => Except.error GetErr.jsonDecode,
          requests := 1, sleeps := [], finalC := c1 }
      else if resp.status = 429 then
        let waited := sleepSecondaryRateLimit resp
        if retriesRemaining = 0 then
          { result := Except.error (GetErr.secondaryRateLimited url),
            requests := 1, sleeps := [waited], finalC := c }
        else
          let r := getLoop url c (now + sleepSeconds waited) retriesRemaining rest
          { result := r.result, requests := r.requests + 1,
            sleeps := waited :: r.sleeps, finalC := r.finalC }
      else if resp.status = 403 then
        if resp.rateLimitRemaining ≠ "0" then
          { result := Except.error (GetErr.unexpectedStatus resp.status url),
            requests := 1, sleeps := [], finalC := c }
        else
          let waited := sleepPrimaryRateLimit now resp
          if retriesRemaining = 0 then
            { result := Except.error (GetErr.primaryRateLimited url),
              requests := 1, sleeps := [waited], finalC := c }
          else
            let r := getLoop url c (now + sleepSeconds waited) retriesRemaining rest
            { result := r.result, requests := r.requests + 1,
              sleeps := waited :: r.sleeps, finalC := r.finalC }
      else
        { result := Except.error (GetErr.unexpectedStatus resp.status url),
          requests := 1, sleeps := [], finalC := c }

/-- The preemptive wait at the top of `Client.get`: when the tracked
remaining count is 0 and `time.Until(c.rateLimitReset)` (saturating) plus
the buffer (wrapping) is positive, sleep that Duration, else nothing —
given as the (zero- or one-element) list of Durations slept. -/
def preemptiveWait (c : ClientState) (now : Int) : List Int :=
  if c.rateLimitRemaining = 0 then
    let d := wrapInt64 (saturateInt64 ((c.rateLimitReset - now) * nsPerSecond) +
      rateLimitResetBuffer)
    if d > 0 then [d] else []
  else []

/-- Client.get: the preemptive wait, then the retry loop starting with the
full budget of `maxRetries` attempts. -/
def get {V : Type} (url : String) (c : ClientState) (now : Int)
    (outcomes : List (HttpOutcome V)) : GetResult V :=
  let pre := preemptiveWait c now
  let r := getLoop url c (now + sleepSeconds pre.sum) maxRetries outcomes
  { result := r.result, requests := r.requests, sleeps := pre ++ r.sleeps,
    finalC := r.finalC }

/-! Seat listing and per-user usage, from `internal/github/client.go` and
`internal/github/model.go`. Each element of a page list is the result of
one `get` call (one issued request). -/

structure Assignee where
  login : String
deriving Repr, DecidableEq

structure CopilotSeat where
  assignee : Assignee
deriving Repr, DecidableEq

structure SeatsResponse where
  totalSeats : Int
  seats : List CopilotSeat
deriving Repr, DecidableEq

def perPage : Nat := 100

/-- The error ListCopilotSeats returns: the failing `get` error wrapped
with the failing page number (`fmt.Errorf("listing copilot seats page %d:
%w", page, err)`), or the model artifact of running out of supplied
pages while the loop still wants one (the loop would issue another
request). -/
inductive SeatsErr where
  | page : Nat → GetErr → SeatsErr
  | noPage : SeatsErr
deriving Repr, DecidableEq

def SeatsErr.message : SeatsErr → String
  | SeatsErr.page n inner =>
      "listing copilot seats page " ++ toString n ++ ": " ++ inner.message
  | SeatsErr.noPage => "model: no page response provided"

/-- The pagination loop of ListCopilotSeats: accumulate `assignee.login`
from each page, stop when a page returns fewer than `perPage` seats; a
page error returns immediately, wrapped with the failing page number.
Returns the accumulated logins and the number of requests issued. -/
def listSeatsLoop : Nat → List (Except GetErr SeatsResponse) →
    Except SeatsErr (List String × Nat)
  | _, [] => Except.error SeatsErr.noPage
  | page, pageResult :: rest =>
    match pageResult with
    | Except.error e => Except.error (SeatsErr.page page e)
    | Except.ok resp =>
        let logins := resp.seats.map (fun s => s.assignee.login)
        if resp.seats.length < perPage then
          Except.ok (logins, 1)
        else
          match listSeatsLoop (page + 1) rest with
          | Except.error e => Except.error e
          | Except.ok (more, n) => Except.ok (logins ++ more, n + 1)

/-- ListCopilotSeats: pagination starts at page 1 with fixed page size 100. -/
def listCopilotSeats (pages : List (Except GetErr SeatsResponse)) :
    Except SeatsErr (List String × Nat) :=
  listSeatsLoop 1 pages

structure UsageItem where
  product : String
  sku : String
  model : String
  unitType : String
  pricePerUnit : Float
  grossQuantity : Float
  grossAmount : Float
  discountQuantity : Float
  discountAmount : Float
  netQuantity : Float
  netAmount : Float

structure UsageResponse where
  enterprise : String
  user : String
  usageItems : List UsageItem

/-- The error GetUserPremiumUsage returns: the failing `get` error wrapped
with the user identifier (`fmt.Errorf("getting premium usage for user %q:
%w", user, err)`; `%q` quotes the login). -/
inductive UsageErr where
  | user : String → GetErr → UsageErr
deriving Repr, DecidableEq

def UsageErr.message : UsageErr → String
  | UsageErr.user u inner =>
      "getting premium usage for user \"" ++ u ++ "\": " ++ inner.message

/-- GetUserPremiumUsage: wraps the error of its single `get` call with the
user identifier. -/
def getUserPremiumUsage (user : String) (r : Except GetErr UsageResponse) :
    Except UsageErr UsageResponse :=
  match r with
  | Except.error e => Except.error (UsageErr.user user e)
  | Except.ok resp => Except.ok resp

/-! The collector and metric publisher, from `cmd/main.go`. The three
prometheus GaugeVecs are embedded as association lists from the label set
`{user, sku, model, enterprise}` to the gauge value; `Reset` empties a
series, `With(labels).Set(v)` replaces or inserts one labelled value. -/

structure Labels where
  user : String
  sku : String
  model : String
  enterprise : String
deriving DecidableEq

abbrev Series := List (Labels × Float)

/-- GaugeVec.With(l).Set(v): replace the value at label set `l`, inserting
it when absent. -/
def seriesSet : Series → Labels → Float → Series
  | [], l, v => [(l, v)]
  | (l', v') :: rest, l, v =>
      if l' = l then (l, v) :: rest else (l', v') :: seriesSet rest l v

/-- The published gauge state: the three gauge series RequestAmount,
RequestCostGross, RequestCostDiscount of `internal/metrics.go`. -/
structure GaugeState where
  requestAmount : Series
  requestCostGross : Series
  requestCostDiscount : Series

/-- One metricEntry of `cmd/main.go`: a label set and the three values to
publish for it. -/
structure MetricEntry where
  labels : Labels
  grossQuantity : Float
  grossAmount : Float
  discountAmount : Float

/-- The metricEntry list one user's usage items become. -/
def usageEntries (enterprise login : String) (items : List UsageItem) : List MetricEntry :=
  items.map (fun item =>
    { labels := { user := login, sku := item.sku, model := item.model,
                  enterprise := enterprise },
      grossQuantity := item.grossQuantity,
      grossAmount := item.grossAmount,
      discountAmount := item.discountAmount })

/-- The per-login loop of collect: fetch usage for each login; a failed
fetch is logged and skipped (contributing no entries), a successful one
appends one entry per usage item. -/
def collectEntries (enterprise : String) (usage : String → Except GetErr UsageResponse) :
    List String → List MetricEntry
  | [] => []
  | login :: rest =>
    match getUserPremiumUsage login (usage login) with
    | Except.error _ => collectEntries enterprise usage rest
    | Except.ok u => usageEntries enterprise login u.usageItems ++
        collectEntries enterprise usage rest

/-- Set the three gauges for one entry. -/
def setEntry (g : GaugeState) (e : MetricEntry) : GaugeState :=
  { requestAmount := seriesSet g.requestAmount e.labels e.grossQuantity,
    requestCostGross := seriesSet g.requestCostGross e.labels e.grossAmount,
    requestCostDiscount := seriesSet g.requestCostDiscount e.labels e.discountAmount }

/-- The publish section of collect: reset the three gauge series, then set
one value per entry per series. -/
def publish (g : GaugeState) (entries : List MetricEntry) : GaugeState :=
  let g1 := { g with requestAmount := [] }
  let g2 := { g1 with requestCostGross := [] }
  let g3 := { g2 with requestCostDiscount := [] }
  entries.foldl setEntry g3

/-- collect: list the seats (fatal on failure, gauges untouched), build the
entry list with per-user failures skipped, then reset-and-set the gauges
under the write lock. `seatPages` feeds `listCopilotSeats`; `usage login`
is the result of the `get` call GetUserPremiumUsage issues for `login`. -/
inductive CollectErr where
  | seats : SeatsErr → CollectErr
deriving Repr, DecidableEq

/-- The error collect returns for a seat-listing failure:
`fmt.Errorf("listing copilot seats: %w", err)`. -/
def CollectErr.message : CollectErr → String
  | CollectErr.seats inner => "listing copilot seats: " ++ inner.message

def collect (enterprise : String)
    (seatPages : List (Except GetErr SeatsResponse))
    (usage : String → Except GetErr UsageResponse)
    (g : GaugeState) : Except CollectErr Unit × GaugeState :=
  match listCopilotSeats seatPages with
  | Except.error e => (Except.error (CollectErr.seats e), g)
  | Except.ok (logins, _) =>
      let entries := collectEntries enterprise usage logins
      (Except.ok (), publish g entries)

/-! Configuration loading, from `internal/config/config.go`. The external
envconfig library is modelled by `envconfigProcess` over an explicit
environment (association list): for each field of Config in struct order,
an absent variable leaves the Go zero value, a present one is parsed
(strings verbatim, bool via ParseBool, int via ParseInt); the first field
whose value does not parse stops processing with an error, later fields
left at their zero values — the partially filled Config is still returned. -/

structure GithubConfig where
  token : String
  enterprise : String
deriving Repr, DecidableEq

structure Config where
  logLevel : String
  logDebug : Bool
  workerInterval : Int
  github : GithubConfig
deriving Repr, DecidableEq

def envLookup : List (String × String) → String → Option String
  | [], _ => none
  | (k, v) :: rest, key => if k = key then some v else envLookup rest key

/-- Go strconv.ParseBool: the exact accepted spellings. -/
def parseBool (s : String) : Option Bool :=
  if s = "1" ∨ s = "t" ∨ s = "T" ∨ s = "true" ∨ s = "TRUE" ∨ s = "True" then some true
  else if s = "0" ∨ s = "f" ∨ s = "F" ∨ s = "false" ∨ s = "FALSE" ∨ s = "False" then
    some false
  else none

def cpueLogLevel : String := "CPUE_LOGLEVEL"
def cpueLogDebug : String := "CPUE_LOGDEBUG"
def cpueWorkerInterval : String := "CPUE_WORKERINTERVAL"
def cpueGithubToken : String := "CPUE_GITHUB_TOKEN"
def cpueGithubEnterprise : String := "CPUE_GITHUB_ENTERPRISE"

/-- The tail of envconfig.Process once the string and bool fields are
done: the Github sub-struct fields are plain strings and cannot fail. -/
def envconfigProcessGithub (env : List (String × String)) (logLevel : String)
    (logDebug : Bool) (workerInterval : Int) : Config × Option String :=
  ({ logLevel := logLevel, logDebug := logDebug, workerInterval := workerInterval,
     github := { token := (envLookup env cpueGithubToken).getD "",
                 enterprise := (envLookup env cpueGithubEnterprise).getD "" } },
   none)

/-- The WorkerInterval field of envconfig.Process: absent leaves the zero
value, unparseable stops with an error (field left zero). -/
def envconfigProcessRest (env : List (String × String)) (logLevel : String)
    (logDebug : Bool) : Config × Option String :=
  match envLookup env cpueWorkerInterval with
  | some s =>
    match parseInt64 s with
    | none =>
        ({ logLevel := logLevel, logDebug := logDebug, workerInterval := 0,
           github := { token := "", enterprise := "" } },
         some ("envconfig: invalid integer value " ++ s))
    | some n => envconfigProcessGithub env logLevel logDebug n
  | none => envconfigProcessGithub env logLevel logDebug 0

/-- envconfig.Process with prefix "CPUE" over the Config struct. -/
def envconfigProcess (env : List (String × String)) : Config × Option String :=
  let logLevel := (envLookup env cpueLogLevel).getD ""
  match envLookup env cpueLogDebug with
  | some s =>
    match parseBool s with
    | none =>
        ({ logLevel := logLevel, logDebug := false, workerInterval := 0,
           github := { token := "", enterprise := "" } },
         some ("envconfig: invalid boolean value " ++ s))
    | some b => envconfigProcessRest env logLevel b
  | none => envconfigProcessRest env logLevel false

/-- Config.Load: run envconfig, then apply the defaults — "info" when the
log level came back empty, 3600 when the worker interval came back 0 — and
return the defaulted Config together with whatever error envconfig gave. -/
def Config.Load (env : List (String × String)) : Config × Option String :=
  let p := envconfigProcess env
  let conf0 := p.1
  let conf1 := if conf0.logLevel = "" then { conf0 with logLevel := "info" } else conf0
  let conf2 := if conf1.workerInterval = 0 then { conf1 with workerInterval := 3600 }
    else conf1
  (conf2, p.2)

/-! Interleaving semantics for the publish/scrape concurrency discipline of
`cmd/main.go`: the publish section of collect holds `collectMu` exclusively
(Lock) for the whole reset-and-repopulate sequence, the /metrics handler
holds it shared (RLock) for the whole scrape. Each individual gauge
operation (one Reset of one series, one Set of one labelled value) is an
atomic micro-op; the lock discipline decides which interleavings exist. -/

/-- One atomic gauge operation inside the publish critical section. -/
inductive MicroOp where
  | resetAmount : MicroOp
  | resetGross : MicroOp
  | resetDiscount : MicroOp
  | setAmount : Labels → Float → MicroOp
  | setGross : Labels → Float → MicroOp
  | setDiscount : Labels → Float → MicroOp

def applyOp (g : GaugeState) : MicroOp → GaugeState
  | MicroOp.resetAmount => { g with requestAmount := [] }
  | MicroOp.resetGross => { g with requestCostGross := [] }
  | MicroOp.resetDiscount => { g with requestCostDiscount := [] }
  | MicroOp.setAmount l v => { g with requestAmount := seriesSet g.requestAmount l v }
  | MicroOp.setGross l v => { g with requestCostGross := seriesSet g.requestCostGross l v }
  | MicroOp.setDiscount l v =>
      { g with requestCostDiscount := seriesSet g.requestCostDiscount l v }

def applyOps (g : GaugeState) : List MicroOp → GaugeState
  | [] => g
  | op :: rest => applyOps (applyOp g op) rest

/-- The micro-op sequence of one publish: the three Resets, then the three
Sets per entry, in the order `cmd/main.go` issues them. -/
def publishOps (entries : List MetricEntry) : List MicroOp :=
  [MicroOp.resetAmount, MicroOp.resetGross, MicroOp.resetDiscount] ++
  entries.flatMap (fun e =>
    [MicroOp.setAmount e.labels e.grossQuantity,
     MicroOp.setGross e.labels e.grossAmount,
     MicroOp.setDiscount e.labels e.discountAmount])

/-- Where the publisher (the worker's collect) stands: before taking the
write lock, inside the critical section with the remaining micro-ops, or
done (lock released). -/
inductive PubPhase where
  | beforeLock : PubPhase
  | publishing : List MicroOp → PubPhase
  | donePub : PubPhase

/-- Where one scrape reader stands: not yet started, holding the read
lock, holding it with its observation taken, or finished with its
observation. -/
inductive RdPhase where
  | idle : RdPhase
  | locked : RdPhase
  | readDone : GaugeState → RdPhase
  | released : GaugeState → RdPhase

def RdPhase.holdsLock : RdPhase → Bool
  | RdPhase.locked => true
  | RdPhase.readDone _ => true
  | _ => false

def RdPhase.obsOf : RdPhase → Option GaugeState
  | RdPhase.readDone g => some g
  | RdPhase.released g => some g
  | _ => none

/-- The whole system: the shared gauge state, whether the write lock is
held, the publisher's phase and each reader's phase. -/
structure Sys where
  gauges : GaugeState
  writerHeld : Bool
  pub : PubPhase
  readers : List RdPhase

/-- One interleaving step. `collectMu.Lock()` needs the write lock free and
no reader holding the read lock; `collectMu.RLock()` needs the write lock
free; gauge micro-ops happen only inside the publisher's critical section;
a reader observes the gauge state while holding the read lock. -/
inductive Step (entries : List MetricEntry) : Sys → Sys → Prop where
  | pubLock (s : Sys) (h1 : s.pub = PubPhase.beforeLock) (h2 : s.writerHeld = false)
      (h3 : ∀ r ∈ s.readers, r.holdsLock = false) :
      Step entries s { s with writerHeld := true,
                              pub := PubPhase.publishing (publishOps entries) }
  | pubStep (s : Sys) (op : MicroOp) (rest : List MicroOp)
      (h1 : s.pub = PubPhase.publishing (op :: rest)) :
      Step entries s { s with gauges := applyOp s.gauges op,
                              pub := PubPhase.publishing rest }
  | pubUnlock (s : Sys) (h1 : s.pub = PubPhase.publishing []) :
      Step entries s { s with writerHeld := false, pub := PubPhase.donePub }
  | rdLock (s : Sys) (i : Nat) (h1 : s.readers[i]? = some RdPhase.idle)
      (h2 : s.writerHeld = false) :
      Step entries s { s with readers := s.readers.set i RdPhase.locked }
  | rdRead (s : Sys) (i : Nat) (h1 : s.readers[i]? = some RdPhase.locked) :
      Step entries s { s with readers := s.readers.set i (RdPhase.readDone s.gauges) }
  | rdUnlock (s : Sys) (i : Nat) (g : GaugeState)
      (h1 : s.readers[i]? = some (RdPhase.readDone g)) :
      Step entries s { s with readers := s.readers.set i (RdPhase.released g) }

/-- The initial system of one publish cycle: the previously published
snapshot `oldG` exposed, lock free, publisher before its lock, `n` scrape
readers not yet started. -/
def initSys (oldG : GaugeState) (n : Nat) : Sys :=
  { gauges := oldG, writerHeld := false, pub := PubPhase.beforeLock,
    readers := List.replicate n RdPhase.idle }

/-- The inductive invariant: the write lock is held exactly during the
critical section and excludes readers; outside the critical section the
gauges are the full old or the full new snapshot; inside it, running the
remaining micro-ops lands on the new snapshot; every observation ever taken
is the full old or the full new snapshot. -/
structure Inv (oldG newG : GaugeState) (s : Sys) : Prop where
  writer_pub : s.writerHeld = true ↔ ∃ rest, s.pub = PubPhase.publishing rest
  writer_excl : s.writerHeld = true → ∀ r ∈ s.readers, r.holdsLock = false
  gauges_before : s.pub = PubPhase.beforeLock → s.gauges = oldG
  gauges_done : s.pub = PubPhase.donePub → s.gauges = newG
  gauges_mid : ∀ rest, s.pub = PubPhase.publishing rest → applyOps s.gauges rest = newG
  obs_ok : ∀ r ∈ s.readers, ∀ g, r.obsOf = some g → g = oldG ∨ g = newG

/-! Specification-side views and concrete fixtures used by the theorems
and their witnesses below. -/

/-- The gauge state with all three series empty. -/
def gaugesEmpty : GaugeState :=
  { requestAmount := [], requestCostGross := [], requestCostDiscount := [] }

/-- Whether one fetch succeeded. -/
def fetchOk {A : Type} (r : Except GetErr A) : Bool :=
  match r with
  | Except.ok _ => true
  | Except.error _ => false

/-- The entries of exactly the logins whose usage fetch succeeded, in
login order: the specification's "observations for A and C only". -/
def successEntries (enterprise : String) (usage : String → Except GetErr UsageResponse)
    (logins : List String) : List MetricEntry :=
  (logins.filter (fun l => fetchOk (usage l))).flatMap
    (fun l =>
      match usage l with
      | Except.ok u => usageEntries enterprise l u.usageItems
      | Except.error _ => [])

/-- A usage oracle that always fails. -/
def usageNone : String → Except GetErr UsageResponse :=
  fun _ => Except.error GetErr.noOutcome

def resp429Plain : Response Unit :=
  { status := 429, retryAfter := "", rateLimitRemaining := "", rateLimitReset := "",
    body := none }

/-- A Retry-After whose nanosecond conversion overflows int64:
9223372037 s is just past maxDuration (9223372036.85... s). -/
def resp429Overflow : Response Unit :=
  { status := 429, retryAfter := "9223372037", rateLimitRemaining := "",
    rateLimitReset := "", body := none }

def resp429RetryAfter : Response Unit :=
  { status := 429, retryAfter := "7", rateLimitRemaining := "", rateLimitReset := "",
    body := none }

def resp200NoJson : Response Unit :=
  { status := 200, retryAfter := "", rateLimitRemaining := "", rateLimitReset := "",
    body := none }

def resp200Plain : Response Unit :=
  { status := 200, retryAfter := "", rateLimitRemaining := "42", rateLimitReset := "999",
    body := some () }

def resp200NoHeaders : Response Unit :=
  { status := 200, retryAfter := "", rateLimitRemaining := "", rateLimitReset := "",
    body := some () }

def resp200BadHeaders : Response Unit :=
  { status := 200, retryAfter := "", rateLimitRemaining := "many",
    rateLimitReset := "garbage", body := some () }

def resp403Auth : Response Unit :=
  { status := 403, retryAfter := "", rateLimitRemaining := "", rateLimitReset := "",
    body := none }

/-- A client with nonzero tracked rate-limit state, to observe what one
call changes. -/
def clientStale : ClientState :=
  { token := "t", rateLimitRemaining := 5, rateLimitReset := 1111 }

def seatWith (l : String) : CopilotSeat := { assignee := { login := l } }

def seatsPageOf (n : Nat) : SeatsResponse :=
  { totalSeats := 0, seats := List.replicate n (seatWith "x") }

/-- One usage item with concrete values. -/
def usageItem1 : UsageItem :=
  { product := "copilot", sku := "premium", model := "gpt", unitType := "requests",
    pricePerUnit := 0.04, grossQuantity := 10, grossAmount := 0.4,
    discountQuantity := 0, discountAmount := 0.1, netQuantity := 10, netAmount := 0.3 }

/-- A usage oracle where user "b" fails and every other user succeeds. -/
def usageABC : String → Except GetErr UsageResponse := fun l =>
  if l = "b" then Except.error (GetErr.unexpectedStatus 500 "uurl")
  else Except.ok { enterprise := "ent", user := l, usageItems := [usageItem1] }

/-- The single seat page listing users a, b and c. -/
def seatsPageABC : SeatsResponse :=
  { totalSeats := 3, seats := [seatWith "a", seatWith "b", seatWith "c"] }

def labels0 : Labels := { user := "a", sku := "s", model := "m", enterprise := "e" }

/-- A nonempty published gauge state standing for the stale previous
snapshot. -/
def gaugesStale : GaugeState :=
  { requestAmount := [(labels0, 1.0)], requestCostGross := [(labels0, 2.0)],
    requestCostDiscount := [(labels0, 3.0)] }

theorem inv_init (oldG newG : GaugeState) (n : Nat) : Inv oldG newG (initSys oldG n) := by
  constructor
  · simp [initSys]
  · intro h
    simp [initSys] at h
  · intro _
    rfl
  · intro h
    simp [initSys] at h
  · intro rest h
    simp [initSys] at h
  · intro r hr g hg
    simp only [initSys, List.mem_replicate] at hr
    rw [hr.2] at hg
    simp [RdPhase.obsOf] at hg

theorem inv_step {entries : List MetricEntry} {oldG newG : GaugeState} {s t : Sys}
    (hNew : newG = applyOps oldG (publishOps entries))
    (hInv : Inv oldG newG s) (hStep : Step entries s t) : Inv oldG newG t := by
  cases hStep with
  | pubLock h1 h2 h3 =>
    constructor
    · simp
    · intro _ r hr
      exact h3 r hr
    · intro h
      simp at h
    · intro h
      simp at h
    · intro rest h
      simp only [PubPhase.publishing.injEq] at h
      subst h
      have hg : s.gauges = oldG := hInv.gauges_before h1
      simp only [hg]
      exact hNew.symm
    · exact hInv.obs_ok
  | pubStep op rest h1 =>
    have hw : s.writerHeld = true := hInv.writer_pub.mpr ⟨op :: rest, h1⟩
    constructor
    · constructor
      · intro _
        exact ⟨rest, rfl⟩
      · intro _
        exact hw
    · intro _ r hr
      exact hInv.writer_excl hw r hr
    · intro h
      simp at h
    · intro h
      simp at h
    · intro r' h
      simp only [PubPhase.publishing.injEq] at h
      subst h
      exact hInv.gauges_mid (op :: rest) h1
    · exact hInv.obs_ok
  | pubUnlock h1 =>
    constructor
    · simp
    · intro h
      simp at h
    · intro h
      simp at h
    · intro _
      have := hInv.gauges_mid [] h1
      simpa [applyOps] using this
    · intro r' h
      simp at h
    · exact hInv.obs_ok
  | rdLock i h1 h2 =>
    constructor
    · exact hInv.writer_pub
    · intro h
      simp only [h2] at h
      cases h
    · exact hInv.gauges_before
    · exact hInv.gauges_done
    · exact hInv.gauges_mid
    · intro r hr g hg
      rcases List.mem_or_eq_of_mem_set hr with hmem | heq
      · exact hInv.obs_ok r hmem g hg
      · rw [heq] at hg
        simp [RdPhase.obsOf] at hg
  | rdRead i h1 =>
    have hmem0 : RdPhase.locked ∈ s.readers := List.getElem?_mem h1
    have hwf : s.writerHeld = false := by
      cases hw : s.writerHeld
      · rfl
      · have := hInv.writer_excl hw RdPhase.locked hmem0
        simp [RdPhase.holdsLock] at this
    constructor
    · exact hInv.writer_pub
    · intro h
      simp only [hwf] at h
      cases h
    · exact hInv.gauges_before
    · exact hInv.gauges_done
    · exact hInv.gauges_mid
    · intro r hr g hg
      rcases List.mem_or_eq_of_mem_set hr with hmem | heq
      · exact hInv.obs_ok r hmem g hg
      · rw [heq] at hg
        simp only [RdPhase.obsOf, Option.some.injEq] at hg
        subst hg
        cases hp : s.pub with
        | beforeLock => exact Or.inl (hInv.gauges_before hp)
        | publishing ops =>
          have := hInv.writer_pub.mpr ⟨ops, hp⟩
          rw [hwf] at this
          cases this
        | donePub => exact Or.inr (hInv.gauges_done hp)
  | rdUnlock i g0 h1 =>
    have hmem0 : RdPhase.readDone g0 ∈ s.readers := List.getElem?_mem h1
    constructor
    · exact hInv.writer_pub
    · intro h r hr
      rcases List.mem_or_eq_of_mem_set hr with hmem | heq
      · exact hInv.writer_excl h r hmem
      · rw [heq]
        rfl
    · exact hInv.gauges_before
    · exact hInv.gauges_done
    · exact hInv.gauges_mid
    · intro r hr g hg
      rcases List.mem_or_eq_of_mem_set hr with hmem | heq
      · exact hInv.obs_ok r hmem g hg
      · rw [heq] at hg
        simp only [RdPhase.obsOf, Option.some.injEq] at hg
        subst hg
        exact hInv.obs_ok (RdPhase.readDone g0) hmem0 g0 rfl

/-- C1: for every interleaving of one publish operation (collect's
reset-then-set of the three gauge series under the write lock) with any
number of concurrent scrape reads (each under the read lock), every
observation a reader takes is either the fully-old or the fully-new
snapshot — never a reset-but-not-yet-repopulated intermediate state. -/
theorem publish_atomic (entries : List MetricEntry) (oldG : GaugeState) (n : Nat)
    (s : Sys) (h : Relation.ReflTransGen (Step entries) (initSys oldG n) s) :
    ∀ r ∈ s.readers, ∀ g, r.obsOf = some g →
      g = oldG ∨ g = applyOps oldG (publishOps entries) := by
  have hInv : Inv oldG (applyOps oldG (publishOps entries)) s := by
    induction h with
    | refl => exact inv_init oldG (applyOps oldG (publishOps entries)) n
    | tail _ hstep ih => exact inv_step rfl ih hstep
  exact hInv.obs_ok

/-- Witness for C1: a two-step concrete interleaving (a reader locks, then
reads) starting from the empty published snapshot, with an empty entry
list being published; the reader's observation is old-or-new. -/
theorem publish_atomic_witness :
    gaugesEmpty = gaugesEmpty ∨ gaugesEmpty = applyOps gaugesEmpty (publishOps []) := by
  have h1 : Step [] (initSys gaugesEmpty 1)
      { initSys gaugesEmpty 1 with
        readers := (initSys gaugesEmpty 1).readers.set 0 RdPhase.locked } :=
    Step.rdLock (initSys gaugesEmpty 1) 0 rfl rfl
  have h2 : Step []
      { initSys gaugesEmpty 1 with
        readers := (initSys gaugesEmpty 1).readers.set 0 RdPhase.locked }
      { { initSys gaugesEmpty 1 with
          readers := (initSys gaugesEmpty 1).readers.set 0 RdPhase.locked } with
        readers := ((initSys gaugesEmpty 1).readers.set 0 RdPhase.locked).set 0
          (RdPhase.readDone gaugesEmpty) } :=
    Step.rdRead _ 0 rfl
  have hchain := Relation.ReflTransGen.tail (Relation.ReflTransGen.tail
    Relation.ReflTransGen.refl h1) h2
  exact publish_atomic [] gaugesEmpty 1 _ hchain (RdPhase.readDone gaugesEmpty)
    (by simp [initSys]) gaugesEmpty rfl

/-! Claims about the client's get operation. -/

theorem parseInt64_ne_empty {s : String} {v : Int} (h : parseInt64 s = some v) :
    s ≠ "" := by
  intro he
  subst he
  simp [parseInt64] at h

theorem getLoop_200 {V : Type} (url : String) (c : ClientState) (now : Int) (k : Nat)
    (resp : Response V) (rest : List (HttpOutcome V)) (h : resp.status = 200) :
    getLoop url c now (k + 1) (Except.ok resp :: rest) =
      { result :=
          match resp.body with
          | some v => Except.ok v
          | none => Except.error GetErr.jsonDecode,
        requests := 1, sleeps := [], finalC := updateRateLimit c resp } := by
  simp [getLoop, h]

/-- C2 (amended): for every 200 response, get performs exactly one request,
updates the tracked rate-limit state, and returns the JSON-decoding result
of the body — the decoded value when the body decodes, the decode error
otherwise. -/
theorem get_status200_decodes {V : Type} (url : String) (c : ClientState) (now : Int)
    (resp : Response V) (rest : List (HttpOutcome V)) (h : resp.status = 200) :
    (get url c now (Except.ok resp :: rest)).result =
      (match resp.body with
       | some v => Except.ok v
       | none => Except.error GetErr.jsonDecode) ∧
    (get url c now (Except.ok resp :: rest)).requests = 1 ∧
    (get url c now (Except.ok resp :: rest)).finalC = updateRateLimit c resp := by
  simp only [get]
  rw [show maxRetries = 2 + 1 from rfl,
    getLoop_200 url c (now + sleepSeconds (preemptiveWait c now).sum) 2 resp rest h]
  exact ⟨rfl, rfl, rfl⟩

/-- Witness for C2: a concrete 200 response with a decodable body gives the
decoded value, one request, and the header-updated client state. -/
theorem get_status200_decodes_witness :
    (get "u" (newClient "t") 0 [Except.ok resp200Plain]).result = Except.ok () ∧
    (get "u" (newClient "t") 0 [Except.ok resp200Plain]).requests = 1 ∧
    (get "u" (newClient "t") 0 [Except.ok resp200Plain]).finalC =
      updateRateLimit (newClient "t") resp200Plain :=
  get_status200_decodes "u" (newClient "t") 0 resp200Plain [] rfl

/-- Counterexample to C2 as stated: a 200 response whose body does not
decode as JSON makes get return the decode error, not success. -/
theorem get_status200_undecodable_cex :
    (get "u" (newClient "t") 0 [Except.ok resp200NoJson]).result =
      Except.error GetErr.jsonDecode := rfl

theorem getLoop_ne_exceeded {V : Type} (url : String) :
    ∀ (outcomes : List (HttpOutcome V)) (k : Nat) (c : ClientState) (now : Int),
      (getLoop url c now (k + 1) outcomes).result ≠
        Except.error (GetErr.exceededMaxRetries url) := by
  intro outcomes
  induction outcomes with
  | nil =>
    intro k c now
    simp [getLoop]
  | cons o rest ih =>
    intro k c now
    cases o with
    | error e => simp [getLoop]
    | ok resp =>
      by_cases h200 : resp.status = 200
      · rw [getLoop_200 url c now k resp rest h200]
        cases hb : resp.body <;> simp
      · by_cases h429 : resp.status = 429
        · cases k with
          | zero => simp [getLoop, h200, h429]
          | succ k' =>
            simp only [getLoop, h200, h429, if_false, if_true, reduceIte,
              Nat.succ_ne_zero]
            exact ih k' c (now + sleepSeconds (sleepSecondaryRateLimit resp))
        · by_cases h403 : resp.status = 403
          · by_cases hrem : resp.rateLimitRemaining ≠ "0"
            · simp [getLoop, h200, h429, h403, hrem]
            · cases k with
              | zero => simp [getLoop, h200, h429, h403, hrem]
              | succ k' =>
                simp only [getLoop, h200, h429, h403, hrem, if_false, if_true,
                  reduceIte, Nat.succ_ne_zero]
                exact ih k' c (now + sleepSeconds (sleepPrimaryRateLimit now resp))
          · simp [getLoop, h200, h429, h403]

/-- C3 (amended): the "exceeded max retries" return of get is unreachable
— for every client state and network behavior, get never produces that
error; an exhausted retry budget surfaces as a "secondary rate limited" or
"primary rate limited" error instead. -/
theorem get_exceeded_unreachable {V : Type} (url : String) (c : ClientState)
    (now : Int) (outcomes : List (HttpOutcome V)) :
    (get url c now outcomes).result ≠ Except.error (GetErr.exceededMaxRetries url) := by
  simp only [get]
  exact getLoop_ne_exceeded url outcomes 2 c
    (now + sleepSeconds (preemptiveWait c now).sum)

/-- Counterexample to C3 as stated: a call whose budget is exhausted by
three straight 429s fails with the "secondary rate limited" error, which
is not the "exceeded max retries" error (nor its message). -/
theorem get_429x3_secondary_cex :
    (get "u" (newClient "t") 0 [Except.ok resp429Plain, Except.ok resp429Plain,
        Except.ok resp429Plain]).result =
      Except.error (GetErr.secondaryRateLimited "u") ∧
    GetErr.secondaryRateLimited "u" ≠ GetErr.exceededMaxRetries "u" ∧
    (GetErr.secondaryRateLimited "u").message ≠
      (GetErr.exceededMaxRetries "u").message :=
  ⟨rfl, by decide, by decide⟩

theorem wrapInt64_eq_self {n : Int} (h1 : -(2 ^ 63) ≤ n) (h2 : n ≤ 2 ^ 63 - 1) :
    wrapInt64 n = n := by
  have hp : ((2 : Int) ^ 63) = 9223372036854775808 := by norm_num
  have hq : ((2 : Int) ^ 64) = 18446744073709551616 := by norm_num
  unfold wrapInt64
  rw [hp, hq]
  rw [hp] at h1 h2
  omega

theorem sleepSecondary_of_pos {V : Type} (resp : Response V) (v : Int)
    (hp : parseInt64 resp.retryAfter = some v) (hv : 0 < v) :
    sleepSecondaryRateLimit resp = wrapInt64 (v * nsPerSecond) := by
  have hne := parseInt64_ne_empty hp
  unfold sleepSecondaryRateLimit
  rw [if_pos hne, hp]
  simp [hv]

/-- C4 (amended): for every 429 response the Duration slept is the wrapped
int64 nanosecond conversion of the `Retry-After` value when it parses to a
positive integer — which equals the value itself (in nanoseconds) exactly
when the conversion does not overflow, i.e. up to 9223372036 seconds —
else exactly the 60-second fallback; and three consecutive 429s exhaust
the budget with a "secondary rate limited" error naming the URL. -/
theorem secondary429_sleep_and_exhaustion :
    defaultFallbackSleep = 60 * nsPerSecond ∧
    (∀ (V : Type) (resp : Response V) (v : Int),
      parseInt64 resp.retryAfter = some v → 0 < v →
      sleepSecondaryRateLimit resp = wrapInt64 (v * nsPerSecond)) ∧
    (∀ (V : Type) (resp : Response V) (v : Int),
      parseInt64 resp.retryAfter = some v → 0 < v → v ≤ 9223372036 →
      sleepSecondaryRateLimit resp = v * nsPerSecond) ∧
    (∀ (V : Type) (resp : Response V),
      (∀ v, parseInt64 resp.retryAfter = some v → v ≤ 0) →
      sleepSecondaryRateLimit resp = defaultFallbackSleep) ∧
    (∀ (V : Type) (url : String) (c : ClientState) (now : Int)
      (r1 r2 r3 : Response V) (rest : List (HttpOutcome V)),
      r1.status = 429 → r2.status = 429 → r3.status = 429 →
      (get url c now (Except.ok r1 :: Except.ok r2 :: Except.ok r3 :: rest)).result =
        Except.error (GetErr.secondaryRateLimited url)) := by
  refine ⟨rfl, ?_, ?_, ?_, ?_⟩
  · intro V resp v hp hv
    exact sleepSecondary_of_pos resp v hp hv
  · intro V resp v hp hv hb
    rw [sleepSecondary_of_pos resp v hp hv]
    apply wrapInt64_eq_self
    · have hpos : (0 : Int) < v * nsPerSecond :=
        mul_pos hv (by norm_num [nsPerSecond])
      have h63 : -((2 : Int) ^ 63) ≤ 0 := by norm_num
      linarith
    · have hmul : v * nsPerSecond ≤ 9223372036 * nsPerSecond :=
        mul_le_mul_of_nonneg_right hb (by norm_num [nsPerSecond])
      have hcap : (9223372036 : Int) * nsPerSecond ≤ 2 ^ 63 - 1 := by
        norm_num [nsPerSecond]
      exact le_trans hmul hcap
  · intro V resp h
    unfold sleepSecondaryRateLimit
    by_cases hne : resp.retryAfter ≠ ""
    · rw [if_pos hne]
      cases hp : parseInt64 resp.retryAfter with
      | none => rfl
      | some v =>
        have hv := h v hp
        simp [Int.not_lt.mpr hv]
    · rw [if_neg hne]
  · intro V url c now r1 r2 r3 rest h1 h2 h3
    simp only [get]
    rw [show maxRetries = 2 + 1 from rfl]
    simp [getLoop, h1, h2, h3]

/-- Witness for C4: a `Retry-After: 7` sleeps exactly 7 seconds (in
nanoseconds, no overflow), an absent header sleeps the 60-second fallback,
and three 429s in a row produce the "secondary rate limited" error. -/
theorem secondary429_witness :
    sleepSecondaryRateLimit resp429RetryAfter = 7 * nsPerSecond ∧
    sleepSecondaryRateLimit resp429Plain = defaultFallbackSleep ∧
    (get "u" (newClient "t") 0 [Except.ok resp429Plain, Except.ok resp429RetryAfter,
        Except.ok resp429Plain]).result =
      Except.error (GetErr.secondaryRateLimited "u") :=
  ⟨(secondary429_sleep_and_exhaustion).2.2.1 Unit resp429RetryAfter 7 rfl
     (by decide) (by decide),
   (secondary429_sleep_and_exhaustion).2.2.2.1 Unit resp429Plain
     (fun v h => Option.noConfusion h),
   (secondary429_sleep_and_exhaustion).2.2.2.2 Unit "u" (newClient "t") 0
     resp429Plain resp429RetryAfter resp429Plain [] rfl rfl rfl⟩

/-- Counterexample to C4 as stated: Retry-After 9223372037 is present and
parses to a positive integer, yet the client does not sleep that many
seconds — `time.Duration(9223372037) * time.Second` wraps int64 to a
negative Duration, so the Sleep returns immediately and the returned
"waited" value is the wrapped negative number, not the header value. -/
theorem secondary429_overflow_cex :
    parseInt64 "9223372037" = some 9223372037 ∧
    (0 : Int) < 9223372037 ∧
    sleepSecondaryRateLimit resp429Overflow = -9223372036709551616 ∧
    sleepSecondaryRateLimit resp429Overflow ≠ 9223372037 * nsPerSecond ∧
    sleepSecondaryRateLimit resp429Overflow < 0 :=
  ⟨rfl, by decide, rfl, by decide, by decide⟩

/-- C5: a 403 whose X-RateLimit-Remaining header is absent or not "0" is
not a rate limit: get fails with the "unexpected status" error on the
first attempt, with exactly one request and no sleep, leaving the client
state unchanged (the tracked remaining count being nonzero, no preemptive
wait happens either). -/
theorem get_403_auth_fails_immediately (V : Type) (url : String) (c : ClientState)
    (now : Int) (resp : Response V) (rest : List (HttpOutcome V))
    (hs : resp.status = 403) (hrem : resp.rateLimitRemaining ≠ "0")
    (hc : c.rateLimitRemaining ≠ 0) :
    get url c now (Except.ok resp :: rest) =
      { result := Except.error (GetErr.unexpectedStatus 403 url), requests := 1,
        sleeps := [], finalC := c } := by
  simp only [get, preemptiveWait]
  rw [if_neg hc, show maxRetries = 2 + 1 from rfl]
  simp [getLoop, hs, hrem]

/-- Witness for C5: a concrete bare 403. -/
theorem get_403_auth_witness :
    get "u" (newClient "t") 0 [Except.ok resp403Auth] =
      { result := Except.error (GetErr.unexpectedStatus 403 "u"), requests := 1,
        sleeps := [], finalC := newClient "t" } :=
  get_403_auth_fails_immediately Unit "u" (newClient "t") 0 resp403Auth [] rfl
    (by decide) (by decide)

theorem updateRateLimit_eq {V : Type} (c : ClientState) (resp : Response V) :
    updateRateLimit c resp =
      { token := c.token,
        rateLimitRemaining :=
          match parseInt64 resp.rateLimitRemaining with
          | some n => n
          | none => c.rateLimitRemaining,
        rateLimitReset :=
          match parseInt64 resp.rateLimitReset with
          | some u => u
          | none => c.rateLimitReset } := by
  have hemp : parseInt64 "" = none := rfl
  unfold updateRateLimit
  by_cases h1 : resp.rateLimitRemaining ≠ "" <;> by_cases h2 : resp.rateLimitReset ≠ ""
  · rw [if_pos h1, if_pos h2]
    cases hpr : parseInt64 resp.rateLimitRemaining <;>
      cases hps : parseInt64 resp.rateLimitReset <;> simp [hpr, hps]
  · have he2 : resp.rateLimitReset = "" := not_ne_iff.mp h2
    rw [if_pos h1, if_neg h2, he2, hemp]
    cases hpr : parseInt64 resp.rateLimitRemaining <;> simp [hpr]
  · have he1 : resp.rateLimitRemaining = "" := not_ne_iff.mp h1
    rw [if_neg h1, if_pos h2, he1, hemp]
    cases hps : parseInt64 resp.rateLimitReset <;> simp [hps]
  · have he1 : resp.rateLimitRemaining = "" := not_ne_iff.mp h1
    have he2 : resp.rateLimitReset = "" := not_ne_iff.mp h2
    rw [if_neg h1, if_neg h2, he1, he2, hemp]

/-- C6 (amended): after a 200 response the client state is exactly
`updateRateLimit` of the old state, and `updateRateLimit` parses both
headers leniently and symmetrically — a present, parseable header replaces
the corresponding tracked value (remaining count, reset timestamp); an
absent or unparseable header leaves it unchanged; every other client field
(the token) stays unchanged. -/
theorem updateRateLimit_lenient (V : Type) (c : ClientState) (resp : Response V) :
    (∀ (url : String) (now : Int) (rest : List (HttpOutcome V)), resp.status = 200 →
      (get url c now (Except.ok resp :: rest)).finalC = updateRateLimit c resp) ∧
    (∀ n, parseInt64 resp.rateLimitRemaining = some n →
      (updateRateLimit c resp).rateLimitRemaining = n) ∧
    (parseInt64 resp.rateLimitRemaining = none →
      (updateRateLimit c resp).rateLimitRemaining = c.rateLimitRemaining) ∧
    (∀ u, parseInt64 resp.rateLimitReset = some u →
      (updateRateLimit c resp).rateLimitReset = u) ∧
    (parseInt64 resp.rateLimitReset = none →
      (updateRateLimit c resp).rateLimitReset = c.rateLimitReset) ∧
    (updateRateLimit c resp).token = c.token := by
  refine ⟨?_, ?_, ?_, ?_, ?_, ?_⟩
  · intro url now rest h
    simp only [get]
    rw [show maxRetries = 2 + 1 from rfl,
      getLoop_200 url c (now + sleepSeconds (preemptiveWait c now).sum) 2 resp rest h]
  · intro n hn
    rw [updateRateLimit_eq, hn]
  · intro hn
    rw [updateRateLimit_eq, hn]
  · intro u hu
    rw [updateRateLimit_eq, hu]
  · intro hu
    rw [updateRateLimit_eq, hu]
  · rw [updateRateLimit_eq]

/-- Witness for C6: a 200 with parseable headers replaces both tracked
values and keeps the token. -/
theorem updateRateLimit_lenient_witness :
    (updateRateLimit clientStale resp200Plain).rateLimitRemaining = 42 ∧
    (updateRateLimit clientStale resp200Plain).rateLimitReset = 999 ∧
    (updateRateLimit clientStale resp200Plain).token = clientStale.token :=
  ⟨(updateRateLimit_lenient Unit clientStale resp200Plain).2.1 42 rfl,
   (updateRateLimit_lenient Unit clientStale resp200Plain).2.2.2.1 999 rfl,
   (updateRateLimit_lenient Unit clientStale resp200Plain).2.2.2.2.2⟩

/-- Counterexample to C6 as stated: after a 200 whose reset header is
absent (first call) or unparseable (second call), the tracked reset
timestamp is left at its prior value 1111 — it is not replaced. -/
theorem updateRateLimit_reset_kept_cex :
    (get "u" clientStale 0 [Except.ok resp200NoHeaders]).finalC = clientStale ∧
    (get "u" clientStale 0 [Except.ok resp200BadHeaders]).finalC = clientStale ∧
    clientStale.rateLimitReset = 1111 :=
  ⟨rfl, rfl, rfl⟩

/-- C7: ListCopilotSeats paginates with fixed page size 100 and stops
exactly when a page returns fewer seats than the page size: for page sizes
[100, 100, 37] it issues exactly 3 requests and returns the 237 logins in
page order; for a first page of size 0 it issues exactly 1 request and
returns the empty list. -/
theorem listCopilotSeats_pagination (p1 p2 p3 : List CopilotSeat) (t1 t2 t3 : Int)
    (rest : List (Except GetErr SeatsResponse))
    (h1 : p1.length = 100) (h2 : p2.length = 100) (h3 : p3.length = 37) :
    listCopilotSeats (Except.ok { totalSeats := t1, seats := p1 } ::
        Except.ok { totalSeats := t2, seats := p2 } ::
        Except.ok { totalSeats := t3, seats := p3 } :: rest) =
      Except.ok ((p1 ++ p2 ++ p3).map (fun s => s.assignee.login), 3) ∧
    (∀ (t : Int) (rest2 : List (Except GetErr SeatsResponse)),
      listCopilotSeats (Except.ok { totalSeats := t, seats := [] } :: rest2) =
        Except.ok ([], 1)) := by
  constructor
  · simp [listCopilotSeats, listSeatsLoop, perPage, h1, h2, h3]
  · intro t rest2
    simp [listCopilotSeats, listSeatsLoop, perPage]

set_option maxRecDepth 4000 in
/-- Witness for C7: concrete pages of 100, 100 and 37 seats give the 237
logins after 3 requests; a concrete empty first page gives the empty list
after 1 request. -/
theorem listCopilotSeats_pagination_witness :
    listCopilotSeats [Except.ok (seatsPageOf 100), Except.ok (seatsPageOf 100),
        Except.ok (seatsPageOf 37)] = Except.ok (List.replicate 237 "x", 3) ∧
    listCopilotSeats [Except.ok (seatsPageOf 0)] = Except.ok ([], 1) := by
  have h := listCopilotSeats_pagination (List.replicate 100 (seatWith "x"))
    (List.replicate 100 (seatWith "x")) (List.replicate 37 (seatWith "x"))
    0 0 0 [] (by simp) (by simp) (by simp)
  refine ⟨h.1.trans ?_, h.2 0 []⟩
  rw [show (237 : Nat) = 100 + 100 + 37 from rfl, List.replicate_add,
    List.replicate_add]
  simp [seatWith, List.map_replicate]

theorem collectEntries_eq_successEntries (enterprise : String)
    (usage : String → Except GetErr UsageResponse) :
    ∀ logins, collectEntries enterprise usage logins =
      successEntries enterprise usage logins := by
  intro logins
  induction logins with
  | nil => rfl
  | cons l rest ih =>
    cases hu : usage l with
    | error e =>
      simp [collectEntries, successEntries, getUserPremiumUsage, fetchOk, hu]
      simpa [successEntries] using ih
    | ok u =>
      simp [collectEntries, successEntries, getUserPremiumUsage, fetchOk, hu]
      simpa [successEntries] using ih

/-- C8: when seat listing succeeds, collect returns success whatever the
per-user fetches do, and publishes exactly the observations of the logins
whose usage fetch succeeded, in order — a failed user contributes nothing
and aborts nothing. -/
theorem collect_partial_failure (enterprise : String)
    (seatPages : List (Except GetErr SeatsResponse))
    (usage : String → Except GetErr UsageResponse) (g : GaugeState)
    (logins : List String) (n : Nat)
    (hseats : listCopilotSeats seatPages = Except.ok (logins, n)) :
    (collect enterprise seatPages usage g).1 = Except.ok () ∧
    (collect enterprise seatPages usage g).2 =
      publish g (successEntries enterprise usage logins) := by
  unfold collect
  rw [hseats]
  exact ⟨rfl,
    congrArg (publish g) (collectEntries_eq_successEntries enterprise usage logins)⟩

/-- Witness for C8: the seat page lists a, b, c; b's fetch fails; collect
succeeds and publishes exactly a's and c's observations. -/
theorem collect_partial_failure_witness :
    (collect "ent" [Except.ok seatsPageABC] usageABC gaugesEmpty).1 = Except.ok () ∧
    (collect "ent" [Except.ok seatsPageABC] usageABC gaugesEmpty).2 =
      publish gaugesEmpty (successEntries "ent" usageABC ["a", "b", "c"]) ∧
    successEntries "ent" usageABC ["a", "b", "c"] =
      usageEntries "ent" "a" [usageItem1] ++ usageEntries "ent" "c" [usageItem1] :=
  have h := collect_partial_failure "ent" [Except.ok seatsPageABC] usageABC
    gaugesEmpty ["a", "b", "c"] 1 rfl
  ⟨h.1, h.2, rfl⟩

/-- C9: when seat listing fails, collect returns the wrapped error and the
published gauge state is exactly the one from before the call — no reset
and no set happened, the stale snapshot stays published. -/
theorem collect_seatsFailure_gauges_unchanged (enterprise : String)
    (seatPages : List (Except GetErr SeatsResponse))
    (usage : String → Except GetErr UsageResponse) (g : GaugeState) (e : SeatsErr)
    (hseats : listCopilotSeats seatPages = Except.error e) :
    collect enterprise seatPages usage g = (Except.error (CollectErr.seats e), g) := by
  simp only [collect, hseats]

/-- Witness for C9: the first seat page fails with an exhausted secondary
rate limit; collect reports the wrapped error and the stale nonempty gauge
state is untouched. -/
theorem collect_seatsFailure_witness :
    collect "ent" [Except.error (GetErr.secondaryRateLimited "u")] usageNone
        gaugesStale =
      (Except.error (CollectErr.seats (SeatsErr.page 1
        (GetErr.secondaryRateLimited "u"))), gaugesStale) :=
  collect_seatsFailure_gauges_unchanged "ent"
    [Except.error (GetErr.secondaryRateLimited "u")] usageNone gaugesStale
    (SeatsErr.page 1 (GetErr.secondaryRateLimited "u")) rfl

theorem configLoad_snd (env : List (String × String)) :
    (Config.Load env).2 = (envconfigProcess env).2 := rfl

theorem configLoad_wi_eq (env : List (String × String)) :
    (Config.Load env).1.workerInterval =
      (if (envconfigProcess env).1.workerInterval = 0 then (3600 : Int)
       else (envconfigProcess env).1.workerInterval) := by
  by_cases hl : (envconfigProcess env).1.logLevel = "" <;>
    by_cases hw : (envconfigProcess env).1.workerInterval = 0 <;>
    simp [Config.Load, hl, hw]

theorem configLoad_logLevel_eq (env : List (String × String)) :
    (Config.Load env).1.logLevel =
      (if (envconfigProcess env).1.logLevel = "" then "info"
       else (envconfigProcess env).1.logLevel) := by
  by_cases hl : (envconfigProcess env).1.logLevel = "" <;>
    by_cases hw : (envconfigProcess env).1.workerInterval = 0 <;>
    simp [Config.Load, hl, hw]

theorem envconfigProcess_wi_absent (env : List (String × String))
    (h : envLookup env cpueWorkerInterval = none) :
    (envconfigProcess env).1.workerInterval = 0 := by
  simp only [envconfigProcess]
  cases hdb : envLookup env cpueLogDebug with
  | none => simp [envconfigProcessRest, envconfigProcessGithub, h]
  | some s =>
    cases hpb : parseBool s with
    | none => simp [hpb]
    | some b => simp [hpb, envconfigProcessRest, envconfigProcessGithub, h]

theorem envconfigProcess_wi_zeroStr (env : List (String × String))
    (h : envLookup env cpueWorkerInterval = some "0") :
    (envconfigProcess env).1.workerInterval = 0 := by
  simp only [envconfigProcess]
  cases hdb : envLookup env cpueLogDebug with
  | none =>
    simp [envconfigProcessRest, envconfigProcessGithub, h,
      show parseInt64 "0" = some 0 from rfl]
  | some s =>
    cases hpb : parseBool s with
    | none => simp [hpb]
    | some b =>
      simp [hpb, envconfigProcessRest, envconfigProcessGithub, h,
        show parseInt64 "0" = some 0 from rfl]

/-- C10: Config.Load yields WorkerInterval 3600 both when the environment
variable is unset and when it is set to "0"; and when environment
processing itself errors, the defaults (3600, and "info" for an empty log
level) are still applied and the defaulted Config is returned alongside
that error. -/
theorem configLoad_defaults :
    (∀ env, envLookup env cpueWorkerInterval = none →
      (Config.Load env).1.workerInterval = 3600) ∧
    (∀ env, envLookup env cpueWorkerInterval = some "0" →
      (Config.Load env).1.workerInterval = 3600) ∧
    (∀ env e, (envconfigProcess env).2 = some e →
      (Config.Load env).2 = some e ∧
      ((envconfigProcess env).1.workerInterval = 0 →
        (Config.Load env).1.workerInterval = 3600) ∧
      ((envconfigProcess env).1.logLevel = "" →
        (Config.Load env).1.logLevel = "info")) := by
  refine ⟨?_, ?_, ?_⟩
  · intro env h
    rw [configLoad_wi_eq env, envconfigProcess_wi_absent env h]
    rfl
  · intro env h
    rw [configLoad_wi_eq env, envconfigProcess_wi_zeroStr env h]
    rfl
  · intro env e h
    refine ⟨by rw [configLoad_snd env, h], ?_, ?_⟩
    · intro h0
      rw [configLoad_wi_eq env, h0]
      rfl
    · intro hl
      rw [configLoad_logLevel_eq env, hl]
      rfl

/-- Witness for C10: unset and "0" both default to 3600; "abc" errors and
Load still returns the defaulted Config alongside the error. -/
theorem configLoad_defaults_witness :
    (Config.Load []).1.workerInterval = 3600 ∧
    (Config.Load [(cpueWorkerInterval, "0")]).1.workerInterval = 3600 ∧
    (Config.Load [(cpueWorkerInterval, "abc")]).2 =
      some "envconfig: invalid integer value abc" ∧
    (Config.Load [(cpueWorkerInterval, "abc")]).1.workerInterval = 3600 ∧
    (Config.Load [(cpueWorkerInterval, "abc")]).1.logLevel = "info" :=
  have h3 := configLoad_defaults.2.2 [(cpueWorkerInterval, "abc")]
    "envconfig: invalid integer value abc" rfl
  ⟨configLoad_defaults.1 [] rfl,
   configLoad_defaults.2.1 [(cpueWorkerInterval, "0")] rfl,
   h3.1, h3.2.1 rfl, h3.2.2 rfl⟩

end CopilotUsageExporter
